import Mathlib

/-!
Verification of the `Footer` React component
(`src/nilsfischerkerrane/src/components/Footer.jsx`).

The component is a class component whose `render()` returns a fixed JSX
tree:

  <div className='text-center mt-5 mb-3'>
      <hr/>
      <a href='https://humblepage.com' className='footer-link'>
        <small>SITE BY Leprechaun Design</small>
      </a>
  </div>

We shallowly embed the virtual-DOM value produced by `render()` as an
inductive tree of elements and text nodes.  JSX whitespace between
element tags (newlines plus indentation) is dropped by JSX semantics, so
the `div` has exactly the two element children shown.  React renders the
`className` prop as the HTML `class` attribute; the embedding keeps the
source's attribute name `className` and reads class tokens from it.
-/

/-- A virtual-DOM node: either a text node or an element with a tag name,
an association list of attributes (in source order) and a list of
children (in source order). -/
inductive Node where
  | text : String → Node
  | element : String → List (String × String) → List Node → Node

/-- Tag name of an element node; `none` for a text node. -/
def Node.tagName : Node → Option String
  | .text _ => none
  | .element t _ _ => some t

/-- Children of a node (a text node has none). -/
def Node.children : Node → List Node
  | .text _ => []
  | .element _ _ cs => cs

/-- Value of an attribute on an element node, `none` when absent or on a
text node. -/
def Node.attr : Node → String → Option String
  | .text _, _ => none
  | .element _ as _, k => (as.find? (fun p => decide (p.1 = k))).map (fun p => p.2)

mutual
/-- Number of elements in the tree (the node itself included) whose tag
equals `t`. -/
def Node.countTag (t : String) : Node → Nat
  | .text _ => 0
  | .element tag _ cs => (if tag = t then 1 else 0) + Node.countTagList t cs

/-- Sum of `Node.countTag t` over a list of nodes. -/
def Node.countTagList (t : String) : List Node → Nat
  | [] => 0
  | c :: cs => Node.countTag t c + Node.countTagList t cs
end

mutual
/-- All elements of the tree with tag `t`, in document (preorder)
order. -/
def Node.elemsWithTag (t : String) : Node → List Node
  | .text _ => []
  | .element tag as cs =>
    (if tag = t then [Node.element tag as cs] else []) ++ Node.elemsWithTagList t cs

/-- Concatenation of `Node.elemsWithTag t` over a list of nodes. -/
def Node.elemsWithTagList (t : String) : List Node → List Node
  | [] => []
  | c :: cs => Node.elemsWithTag t c ++ Node.elemsWithTagList t cs
end

mutual
/-- Tag names of all elements of the tree in preorder (document)
order. -/
def Node.preorderTags : Node → List String
  | .text _ => []
  | .element t _ cs => t :: Node.preorderTagsList cs

/-- Concatenation of `Node.preorderTags` over a list of nodes. -/
def Node.preorderTagsList : List Node → List String
  | [] => []
  | c :: cs => Node.preorderTags c ++ Node.preorderTagsList cs
end

mutual
/-- Concatenated text content of a node, as the DOM `textContent`
accessor computes it. -/
def Node.textContent : Node → String
  | .text s => s
  | .element _ _ cs => Node.textContentList cs

/-- Concatenated text content of a list of nodes. -/
def Node.textContentList : List Node → String
  | [] => ""
  | c :: cs => Node.textContent c ++ Node.textContentList cs
end

mutual
/-- Serialization of a node to markup text: attributes in source order,
children in source order, explicit closing tag. -/
def Node.serialize : Node → String
  | .text s => s
  | .element t as cs =>
    "<" ++ t
      ++ String.join (as.map (fun p => " " ++ p.1 ++ "=" ++ "\"" ++ p.2 ++ "\""))
      ++ ">" ++ Node.serializeList cs ++ "</" ++ t ++ ">"

/-- Concatenated serialization of a list of nodes. -/
def Node.serializeList : List Node → String
  | [] => ""
  | c :: cs => Node.serialize c ++ Node.serializeList cs
end

/-- Helper for `classTokens`: split a list of characters at spaces,
accumulating the current (reversed) token. -/
def splitClassesAux : List Char → List Char → List String
  | [], acc => if acc = [] then [] else [String.mk acc.reverse]
  | c :: cs, acc =>
    if c = ' ' then
      (if acc = [] then [] else [String.mk acc.reverse]) ++ splitClassesAux cs []
    else
      splitClassesAux cs (c :: acc)

/-- Whitespace-separated tokens of a class string, as CSS class matching
treats them. -/
def splitClasses (s : String) : List String := splitClassesAux s.toList []

/-- Class tokens of an element, read from its `className` attribute
(which React renders as the HTML `class` attribute). -/
def Node.classTokens (n : Node) : List String :=
  match n.attr "className" with
  | some s => splitClasses s
  | none => []

/-- The fixed JSX tree returned by `Footer.render()` in
`src/components/Footer.jsx`, lines 8 to 11: a `div` classed
`text-center mt-5 mb-3` containing an `hr` and an `a` whose `href` is
`https://humblepage.com`, whose class is `footer-link`, and whose single
child is a `small` element holding the text
`SITE BY Leprechaun Design`. -/
def footerMarkup : Node :=
  Node.element "div" [("className", "text-center mt-5 mb-3")]
    [ Node.element "hr" [] []
    , Node.element "a" [("href", "https://humblepage.com"), ("className", "footer-link")]
        [Node.element "small" [] [Node.text "SITE BY Leprechaun Design"]] ]

/-- An instance of the `Footer` class component.  React hands every class
component a `props` value at construction; the source's `render` body
never reads `this.props` (and the class declares no state), which the
embedding reflects by `render` ignoring the instance.  `α` stands for
whatever props type a parent might use. -/
structure Footer (α : Type) where
  props : α

/-- The `render()` method of `Footer` (lines 6 to 13 of the source): it
unconditionally returns the fixed JSX tree, reading nothing from the
instance. -/
def Footer.render {α : Type} (_self : Footer α) : Node := footerMarkup

/-- C1: every invocation of `Footer.render` yields a tree with exactly
one anchor element, and that anchor's `href` attribute is the string
`https://humblepage.com`. -/
theorem footer_unique_anchor_href {α : Type} (self : Footer α) :
    Node.countTag "a" self.render = 1 ∧
    (Node.elemsWithTag "a" self.render).map (fun n => n.attr "href")
      = [some "https://humblepage.com"] := by
  show Node.countTag "a" footerMarkup = 1 ∧
    (Node.elemsWithTag "a" footerMarkup).map (fun n => n.attr "href")
      = [some "https://humblepage.com"]
  decide

/-- C2: every invocation of `Footer.render` yields a tree whose unique
anchor element has text content exactly `SITE BY Leprechaun Design`. -/
theorem footer_anchor_text {α : Type} (self : Footer α) :
    (Node.elemsWithTag "a" self.render).map Node.textContent
      = ["SITE BY Leprechaun Design"] := by
  show (Node.elemsWithTag "a" footerMarkup).map Node.textContent
      = ["SITE BY Leprechaun Design"]
  decide

/-- C3: every invocation of `Footer.render` yields a tree with exactly
one `hr` (divider) element, and in document order the divider precedes
the anchor. -/
theorem footer_divider_precedes_anchor {α : Type} (self : Footer α) :
    Node.countTag "hr" self.render = 1 ∧
    List.indexOf "hr" (Node.preorderTags self.render)
      < List.indexOf "a" (Node.preorderTags self.render) := by
  show Node.countTag "hr" footerMarkup = 1 ∧
    List.indexOf "hr" (Node.preorderTags footerMarkup)
      < List.indexOf "a" (Node.preorderTags footerMarkup)
  decide

/-- C4: `Footer.render` is deterministic: any two invocations, on any
two instances of any props types, produce identical output trees and
byte-identical serialized markup. -/
theorem footer_render_deterministic {α β : Type} (x : Footer α) (y : Footer β) :
    x.render = y.render ∧ x.render.serialize = y.render.serialize :=
  ⟨rfl, rfl⟩

/-- C5: every invocation of `Footer.render` yields a root container
(`div`) whose class tokens include the centering class `text-center` and
the vertical-margin classes `mt-5` and `mb-3`, and whose children
include an `hr` element and an `a` element. -/
theorem footer_container_classes {α : Type} (self : Footer α) :
    self.render.tagName = some "div" ∧
    "text-center" ∈ self.render.classTokens ∧
    "mt-5" ∈ self.render.classTokens ∧
    "mb-3" ∈ self.render.classTokens ∧
    (∃ n ∈ self.render.children, n.tagName = some "hr") ∧
    (∃ n ∈ self.render.children, n.tagName = some "a") := by
  show footerMarkup.tagName = some "div" ∧
    "text-center" ∈ footerMarkup.classTokens ∧
    "mt-5" ∈ footerMarkup.classTokens ∧
    "mb-3" ∈ footerMarkup.classTokens ∧
    (∃ n ∈ footerMarkup.children, n.tagName = some "hr") ∧
    (∃ n ∈ footerMarkup.children, n.tagName = some "a")
  decide

/-- C6: in every invocation of `Footer.render`, the unique anchor's
children consist of exactly one `small` element whose content is the
text node `SITE BY Leprechaun Design`, so the link text renders at a
smaller font size. -/
theorem footer_anchor_small_child {α : Type} (self : Footer α) :
    (Node.elemsWithTag "a" self.render).map Node.children
      = [[Node.element "small" [] [Node.text "SITE BY Leprechaun Design"]]] :=
  rfl

/-- C7: in every invocation of `Footer.render`, the unique anchor
carries exactly the class token `footer-link`, the styling hook for
external stylesheets. -/
theorem footer_anchor_class {α : Type} (self : Footer α) :
    (Node.elemsWithTag "a" self.render).map Node.classTokens
      = [["footer-link"]] := by
  show (Node.elemsWithTag "a" footerMarkup).map Node.classTokens
      = [["footer-link"]]
  decide

/-- C8: `Footer.render` cannot fail: it is a total function with no
error branch, so every invocation completes normally and returns the
fixed markup tree (no exception, fault or rejected operation is
possible). -/
theorem footer_render_total {α : Type} (self : Footer α) :
    self.render = footerMarkup :=
  rfl

/-- C9: the output of `Footer.render` is independent of the props the
instance was constructed with: any two props values, even over
different props types, yield identical output (the render body reads
neither props nor state). -/
theorem footer_render_props_independent {α β : Type} (p : α) (q : β) :
    (Footer.mk p).render = (Footer.mk q).render :=
  rfl

/-- C10: in every invocation of `Footer.render`, the container has
exactly two children, the divider first and the anchor second, with no
other children or text nodes; and the anchor carries no `target`
attribute, so navigation follows the host's default same-tab
behavior. -/
theorem footer_children_exact {α : Type} (self : Footer α) :
    self.render.children
      = [ Node.element "hr" [] []
        , Node.element "a"
            [("href", "https://humblepage.com"), ("className", "footer-link")]
            [Node.element "small" [] [Node.text "SITE BY Leprechaun Design"]] ] ∧
    (Node.elemsWithTag "a" self.render).map (fun n => n.attr "target") = [none] := by
  refine ⟨rfl, ?_⟩
  show (Node.elemsWithTag "a" footerMarkup).map (fun n => n.attr "target") = [none]
  decide
